import Mathlib

/-!
Shallow embedding of the AIOS runtime control plane.

Source files:
* `runtime/kernel.py` — FastAPI endpoints mutating the module-level
  `active_components` dict: `setup_llm`, `setup_storage`, `setup_memory`,
  `setup_tool_manager`, `setup_agent_factory`, `setup_scheduler`,
  `get_status`, `submit_agent`, `get_agent_status`, `cleanup_components`,
  `handle_query`.
* `aios/llm_core/adapter.py` — `LLMAdapter.__init__` backend resolution.

External collaborators (`useCore`, `useStorageManager`, `useMemoryManager`,
`useToolManager`, `useFactory`, `fifo_scheduler`, `send_request`) are not
under the sources; each endpoint takes the outcome of the collaborator call as an
explicit `Except` argument, the way the Python code observes it (a normal
return or a raised exception).  Raised exceptions that escape an endpoint are
modelled as `Except.error` carrying the status code and detail of the
`HTTPException`; state mutations that happened before the raise persist, exactly as
for the in-place mutation of the Python dict.
-/

namespace AIOS

/-- HTTPException payload: status code and detail.  Where the Python code
builds a dict detail, only its message string is kept. -/
structure HTTPError where
  status_code : Nat
  detail : String
deriving DecidableEq, Repr

/-- Python exception observed by an `except` block: type name (`type(e).__name__`),
message (`str(e)`), formatted traceback, and the optional `debug_logs`
attribute read by `getattr(e, "debug_logs", None)`. -/
structure PyErr where
  name : String
  msg : String
  trace : String
  debug_logs : Option String
deriving DecidableEq, Repr

/-- Handle stored in the llm / storage / memory / tool slots.  For cleanup the
kernel only observes whether the instance has a `cleanup` attribute and
whether calling it raises (`hasattr(..., "cleanup")` then `.cleanup()`);
`cleanupMsg` is `str(e)` of the raised exception. -/
structure Component where
  hasCleanup : Bool
  cleanupFails : Bool
  cleanupMsg : String
deriving DecidableEq, Repr

/-- Handle returned by `fifo_scheduler(...)`: the kernel calls `.start()`
right after storing it and `.stop()` during cleanup; either call may raise. -/
structure Sched where
  startFails : Bool
  startMsg : String
  stopFails : Bool
  stopMsg : String
deriving DecidableEq, Repr

/-- The `{"submit": ..., "await": ...}` dict stored under the `factory` key:
`submit(agent_name, task_input)` returns an execution id or raises, and
`await(execution_id)` returns the result, `None` while still running, or
raises. -/
structure Factory where
  submitRes : String → String → Except PyErr Int
  awaitRes : Int → Except PyErr (Option String)

/-- The module-level `active_components` dict.  It is created with the five
keys `llm`, `storage`, `memory`, `tool`, `scheduler` (value `None` each); the
`factory` key is only ever inserted by `setup_agent_factory`, always with a
non-empty (hence truthy) dict value, so `factory = none` models the key being
absent.  Stored instances are Python objects and therefore truthy, so slot
truthiness is `Option.isSome`. -/
structure Registry where
  llm : Option Component
  storage : Option Component
  memory : Option Component
  tool : Option Component
  scheduler : Option Sched
  factory : Option Factory

/-- State of `active_components` at module load: five keys, all `None`. -/
def initRegistry : Registry :=
  { llm := none, storage := none, memory := none, tool := none,
    scheduler := none, factory := none }

/-- Truthiness of a slot looked up by name, as `active_components[comp]` is
tested in the `missing_components` comprehensions. -/
def slotTruthy (r : Registry) : String → Bool
  | "llm" => r.llm.isSome
  | "storage" => r.storage.isSome
  | "memory" => r.memory.isSome
  | "tool" => r.tool.isSome
  | "scheduler" => r.scheduler.isSome
  | _ => false

/-- The comprehension `[comp for comp in required_components if not
active_components[comp]]` with `required_components = ["llm", "memory",
"storage", "tool"]`, shared by `setup_agent_factory` and `setup_scheduler`. -/
def missingComponents (r : Registry) : List String :=
  (["llm", "memory", "storage", "tool"]).filter (fun comp => !(slotTruthy r comp))

/-- POST `/core/llm/setup`: `useCore(...)` outcome is `build`; on success the
handle is stored, on a raise the slot is untouched and a 500 is raised. -/
def setup_llm (r : Registry) (build : Except String Component) :
    Registry × Except HTTPError String :=
  match build with
  | .ok llm => ({ r with llm := some llm }, .ok "LLM core initialized")
  | .error e => (r, .error ⟨500, "Failed to initialize LLM core: " ++ e⟩)

/-- POST `/core/storage/setup`: `useStorageManager(...)` outcome is `build`. -/
def setup_storage (r : Registry) (build : Except String Component) :
    Registry × Except HTTPError String :=
  match build with
  | .ok sm => ({ r with storage := some sm }, .ok "Storage manager initialized")
  | .error e => (r, .error ⟨500, "Failed to initialize storage manager: " ++ e⟩)

/-- POST `/core/memory/setup`: `if not active_components["storage"]` raises a
400 before anything else; otherwise `useMemoryManager(...)` outcome is
`build`. -/
def setup_memory (r : Registry) (build : Except String Component) :
    Registry × Except HTTPError String :=
  if r.storage.isNone then
    (r, .error ⟨400, "Storage manager must be initialized first"⟩)
  else
    match build with
    | .ok mm => ({ r with memory := some mm }, .ok "Memory manager initialized")
    | .error e => (r, .error ⟨500, "Failed to initialize memory manager: " ++ e⟩)

/-- POST `/core/tool/setup`: `useToolManager()` outcome is `build`; the 500
detail dict is kept as its message string. -/
def setup_tool_manager (r : Registry) (build : Except String Component) :
    Registry × Except HTTPError String :=
  match build with
  | .ok tm => ({ r with tool := some tm }, .ok "Tool manager initialized")
  | .error e => (r, .error ⟨500, "Failed to initialize tool manager: " ++ e⟩)

/-- POST `/core/factory/setup`: checks `missing_components` over
llm/memory/storage/tool, then stores the `useFactory` submit/await pair under
the `factory` key.  The subsequent `print(active_components["llm"].model)`
cannot raise (llm was checked truthy and `LLMAdapter` always has `.model`). -/
def setup_agent_factory (r : Registry) (build : Except String Factory) :
    Registry × Except HTTPError String :=
  if missingComponents r ≠ [] then
    (r, .error ⟨400, "Missing required components: " ++
      String.intercalate ", " (missingComponents r)⟩)
  else
    match build with
    | .ok f => ({ r with factory := some f }, .ok "Agent factory initialized")
    | .error e => (r, .error ⟨500, "Failed to initialize agent factory: " ++ e⟩)

/-- POST `/core/scheduler/setup`: prerequisite check, then
`fifo_scheduler(...)` (outcome `build`), then the assignment
`active_components["scheduler"] = scheduler`, and only then
`scheduler.start()`.  A raise from `start()` is caught by the same `except`
and surfaced as a 500, but the assignment has already happened. -/
def setup_scheduler (r : Registry) (build : Except String Sched) :
    Registry × Except HTTPError String :=
  if missingComponents r ≠ [] then
    (r, .error ⟨400, "Missing required components: " ++
      String.intercalate ", " (missingComponents r)⟩)
  else
    match build with
    | .error e => (r, .error ⟨500, "Failed to initialize scheduler: " ++ e⟩)
    | .ok s =>
      let r1 : Registry := { r with scheduler := some s }
      if s.startFails then
        (r1, .error ⟨500, "Failed to initialize scheduler: " ++ s.startMsg⟩)
      else
        (r1, .ok "Scheduler initialized")

/-- GET `/core/status`: the dict comprehension over `active_components.items()`
in insertion order — the five original keys, then `factory` if that key was
ever inserted (its value, a non-empty dict, is truthy). -/
def get_status (r : Registry) : List (String × String) :=
  [("llm", if r.llm.isSome then "active" else "inactive"),
   ("storage", if r.storage.isSome then "active" else "inactive"),
   ("memory", if r.memory.isSome then "active" else "inactive"),
   ("tool", if r.tool.isSome then "active" else "inactive"),
   ("scheduler", if r.scheduler.isSome then "active" else "inactive")] ++
  (match r.factory with
   | none => []
   | some _ => [("factory", "active")])

/-- Body of POST `/agents/submit`: `agent_id` and `agent_config["task"]`
(modelled with the `task` key present, as every caller in scope supplies it). -/
structure AgentSubmit where
  agent_id : String
  task : String

/-- POST `/agents/submit`: 400 when the `factory` key is absent or falsy,
otherwise calls the stored submit closure; a raise from it becomes a 500
whose structured detail is kept as the exception message. -/
def submit_agent (r : Registry) (config : AgentSubmit) :
    Except HTTPError (Int × String) :=
  match r.factory with
  | none => .error ⟨400, "Agent factory not initialized"⟩
  | some f =>
    match f.submitRes config.agent_id config.task with
    | .ok execution_id =>
      .ok (execution_id, "Agent " ++ config.agent_id ++ " submitted for execution")
    | .error e => .error ⟨500, e.msg⟩

/-- Well-formed body returned by GET `/agents/{execution_id}/status` (always
with HTTP 200): the `running`, `completed` and error-status dicts. -/
inductive PollResp where
  | running (execution_id : Int)
  | completed (result : String) (execution_id : Int)
  | errorStatus (typeName msg trace : String) (debug_logs : Option String)
      (execution_id : Int)
deriving DecidableEq, Repr

/-- GET `/agents/{execution_id}/status`: the 400 for a missing factory is
raised outside the `try` and escapes as an HTTP error.  Inside, a `None` from
`await_execution` yields the `running` body, a value yields `completed`, and
a raise is re-raised by the inner `except` and converted by the outer
`except` into the error-status body — returned normally, never thrown. -/
def get_agent_status (r : Registry) (execution_id : Int) :
    Except HTTPError PollResp :=
  match r.factory with
  | none => .error ⟨400, "Agent factory not initialized"⟩
  | some f =>
    match f.awaitRes execution_id with
    | .ok none => .ok (.running execution_id)
    | .ok (some result) => .ok (.completed result execution_id)
    | .error e => .ok (.errorStatus e.name e.msg e.trace e.debug_logs execution_id)

/-- One iteration of the cleanup loop body for a slot: a `None` slot is
skipped; for a truthy instance, `.cleanup()` is called when the attribute is
present and may raise.  Returns `some msg` when the iteration raises (in
which case the `= None` assignment is never reached and the slot keeps its
handle) and `none` when it completes (after which the slot is `None` —
whether it was cleared or was empty to begin with). -/
def releaseFail (c : Option Component) : Option String :=
  match c with
  | none => none
  | some comp =>
    if comp.hasCleanup && comp.cleanupFails then some comp.cleanupMsg
    else none

/-- POST `/core/cleanup`: `active_components["scheduler"].stop()` first — an
`AttributeError` when the slot is `None` (punctuation of the Python
`NoneType` message omitted), or the raise from `stop()` itself, either way
before the slot is cleared; then the loop over tool, memory, storage, llm,
which stops at the first raise (there is no try/finally around an
iteration), which the single `except` of the endpoint turns into a 500.  Each
branch spells out the dict at that point: the slots already iterated are
`None`, the slot whose release raised and the slots after it keep their
handles.  The loop reads each slot from the original state, as earlier
iterations only assign other keys. -/
def cleanup_components (r : Registry) : Registry × Except HTTPError String :=
  match r.scheduler with
  | none =>
    (r, .error ⟨500,
      "Failed to cleanup components: NoneType object has no attribute stop"⟩)
  | some s =>
    if s.stopFails then
      (r, .error ⟨500, "Failed to cleanup components: " ++ s.stopMsg⟩)
    else
      match releaseFail r.tool with
      | some e =>
        ({ r with scheduler := none },
         .error ⟨500, "Failed to cleanup components: " ++ e⟩)
      | none =>
        match releaseFail r.memory with
        | some e =>
          ({ r with scheduler := none, tool := none },
           .error ⟨500, "Failed to cleanup components: " ++ e⟩)
        | none =>
          match releaseFail r.storage with
          | some e =>
            ({ r with scheduler := none, tool := none, memory := none },
             .error ⟨500, "Failed to cleanup components: " ++ e⟩)
          | none =>
            match releaseFail r.llm with
            | some e =>
              ({ r with scheduler := none, tool := none, memory := none, storage := none },
               .error ⟨500, "Failed to cleanup components: " ++ e⟩)
            | none =>
              ({ r with scheduler := none, tool := none, memory := none, storage := none, llm := none },
               .ok "All components cleaned up")

/-- The `query_type` literal of a `QueryRequest`. -/
inductive QueryType where
  | llm | tool | storage | memory
deriving DecidableEq, Repr

/-- The `LLMQuery` payload fields the kernel copies when rebuilding the query. -/
structure LLMQuery where
  messages : List String
  tools : Option (List String)
  action_type : String
  message_return_type : String
deriving DecidableEq, Repr

/-- Body of POST `/query`. -/
structure QueryRequest where
  agent_name : String
  query_type : QueryType
  query_data : LLMQuery
deriving DecidableEq, Repr

/-- POST `/query`: for `query_type == "llm"` the payload fields are copied
into a fresh `LLMQuery` and sent via `send_request` (a raise becomes a 500).
For every other `query_type` no branch matches, the `try` body falls through,
and the function returns `None` — FastAPI serves that as a 200 with a null
body, modelled as `.ok none`. -/
def handle_query (send_request : String → LLMQuery → Except String String)
    (request : QueryRequest) : Except HTTPError (Option String) :=
  match request.query_type with
  | .llm =>
    let query : LLMQuery :=
      { messages := request.query_data.messages,
        tools := request.query_data.tools,
        action_type := request.query_data.action_type,
        message_return_type := request.query_data.message_return_type }
    (match send_request request.agent_name query with
     | .ok resp => .ok (some resp)
     | .error e => .error ⟨500, e⟩)
  | _ => .ok none

/-- Backend chosen by `LLMAdapter.__init__`: a class looked up in
`BACKEND_REGISTRY` by backend id, or the `HfNativeLLM` default. -/
inductive Backend where
  | registered (id : String)
  | hfNative
deriving DecidableEq, Repr

/-- Python `str.lower()` on the character sequence of a string (faithful on
the ASCII model names and prefixes the adapter compares). -/
def pyLower (s : String) : String :=
  ⟨s.data.map Char.toLower⟩

/-- Python `str.startswith(pre)`: the characters of `pre` are a prefix of the
characters of `s`. -/
def pyStartsWith (s pre : String) : Bool :=
  pre.data.isPrefixOf s.data

/-- Prefix inference of `LLMAdapter.__init__`: `model_prefix` is the first
key of `MODEL_PREFIX_MAP` (stable dict order, modelled as a list) that
`llm_name.lower()` starts with, or `None`.  The guard `if model_prefix:`
tests Python truthiness, so both no match and a matched empty-string prefix
(falsy) fall through to the `HfNativeLLM` default; for a truthy match the
mapped id is looked up in `BACKEND_REGISTRY` — a lookup that raises
`KeyError` when the id is not registered. -/
def resolveByPrefix (reg : List String) (pmap : List (String × String))
    (llm_name : String) : Except String Backend :=
  match pmap.find? (fun pb => pyStartsWith (pyLower llm_name) pb.1) with
  | some pb =>
    if pb.1 ≠ "" then
      if pb.2 ∈ reg then .ok (.registered pb.2)
      else .error ("KeyError: " ++ pb.2)
    else .ok .hfNative
  | none => .ok .hfNative

/-- Backend resolution of `LLMAdapter.__init__`: `if llm_backend and
llm_backend in BACKEND_REGISTRY` — a non-`None`, non-empty (truthy) hint that
is a registered backend id wins immediately; anything else falls through to
prefix inference, and `HfNativeLLM` is the final default.  `reg` is the key
set of `BACKEND_REGISTRY` and `pmap` the ordered pairs of
`MODEL_PREFIX_MAP`, both module-level tables of `aios/llm_core/registry.py`. -/
def resolveBackend (reg : List String) (pmap : List (String × String))
    (llm_name : String) (llm_backend : Option String) : Except String Backend :=
  match llm_backend with
  | some b =>
    if b ≠ "" ∧ b ∈ reg then .ok (.registered b)
    else resolveByPrefix reg pmap llm_name
  | none => resolveByPrefix reg pmap llm_name

/-- Modelled from the spec: the registry module (`BACKEND_REGISTRY` and
`MODEL_PREFIX_MAP` in `aios/llm_core/registry.py`) is not under the sources.
The spec (§3, §4.1) describes it as an ordered table of unique prefixes
mapping to registered backend ids, and resolution as never erroring; this
predicate captures the snapshot invariants that description assumes: backend
ids are nonempty strings and every prefix maps to a registered backend id. -/
def RegistryWF (reg : List String) (pmap : List (String × String)) : Prop :=
  "" ∉ reg ∧ ∀ pb ∈ pmap, pb.2 ∈ reg

/-- Unfolding lemma: the llm entry of the prerequisite lookup. -/
theorem slotTruthy_llm (r : Registry) : slotTruthy r "llm" = r.llm.isSome := rfl

/-- Unfolding lemma: the storage entry of the prerequisite lookup. -/
theorem slotTruthy_storage (r : Registry) : slotTruthy r "storage" = r.storage.isSome := rfl

/-- Unfolding lemma: the memory entry of the prerequisite lookup. -/
theorem slotTruthy_memory (r : Registry) : slotTruthy r "memory" = r.memory.isSome := rfl

/-- Unfolding lemma: the tool entry of the prerequisite lookup. -/
theorem slotTruthy_tool (r : Registry) : slotTruthy r "tool" = r.tool.isSome := rfl

/-- C7: for every registry state with the storage slot not active,
`setup_memory` fails with the 400 prerequisite error and leaves the whole
registry (in particular the memory slot) unchanged; with storage active the
prerequisite check passes and a successful construction activates the memory
slot. -/
theorem setup_memory_requires_storage (r : Registry) (build : Except String Component) :
    (r.storage = none →
      setup_memory r build =
        (r, .error ⟨400, "Storage manager must be initialized first"⟩))
    ∧ (∀ sm mm, r.storage = some sm → build = .ok mm →
        setup_memory r build =
          ({ r with memory := some mm }, .ok "Memory manager initialized")) := by
  constructor
  · intro h
    unfold setup_memory
    simp [h]
  · intro sm mm hs hb
    unfold setup_memory
    simp [hs, hb]

/-- Witness for C7 at concrete states: memory setup on the fresh registry is
refused with the 400 error, and after a storage setup it succeeds. -/
theorem setup_memory_requires_storage_witness :
    setup_memory initRegistry (.ok ⟨false, false, ""⟩) =
      (initRegistry, .error ⟨400, "Storage manager must be initialized first"⟩)
    ∧ setup_memory { initRegistry with storage := some ⟨false, false, ""⟩ }
        (.ok ⟨true, false, ""⟩) =
      ({ initRegistry with storage := some ⟨false, false, ""⟩, memory := some ⟨true, false, ""⟩ },
       .ok "Memory manager initialized") :=
  ⟨(setup_memory_requires_storage initRegistry _).1 rfl,
   (setup_memory_requires_storage _ _).2 _ _ rfl rfl⟩

/-- C8: with llm and storage active but memory and tool uninitialized,
`setup_scheduler` fails with the 400 error whose detail names exactly
"memory, tool" (the missing prerequisites in required-list order) and
returns the registry unchanged, so the scheduler slot stays uninitialized. -/
theorem setup_scheduler_names_missing (r : Registry) (build : Except String Sched)
    (hl : r.llm.isSome = true) (hs : r.storage.isSome = true)
    (hm : r.memory = none) (ht : r.tool = none) :
    setup_scheduler r build =
      (r, .error ⟨400, "Missing required components: memory, tool"⟩) := by
  have hmiss : missingComponents r = ["memory", "tool"] := by
    unfold missingComponents
    simp [slotTruthy_llm, slotTruthy_storage, slotTruthy_memory, slotTruthy_tool,
      hl, hs, hm, ht, List.filter]
  unfold setup_scheduler
  rw [hmiss, if_pos (show (["memory", "tool"] : List String) ≠ [] from by decide)]
  have hstr : "Missing required components: " ++ String.intercalate ", " ["memory", "tool"] =
      "Missing required components: memory, tool" := by decide
  rw [hstr]

/-- Witness for C8: a registry with exactly llm and storage set up. -/
theorem setup_scheduler_names_missing_witness :
    setup_scheduler
      { initRegistry with llm := some ⟨false, false, ""⟩, storage := some ⟨false, false, ""⟩ }
      (.error "unused") =
      ({ initRegistry with llm := some ⟨false, false, ""⟩, storage := some ⟨false, false, ""⟩ },
       .error ⟨400, "Missing required components: memory, tool"⟩) :=
  setup_scheduler_names_missing _ _ rfl rfl rfl rfl

/-- Counterexample to C3 as stated: a tool query does not fail with a
500-class error — `handle_query` returns a 200 success with a null body. -/
theorem handle_query_tool_silent_success :
    handle_query (fun _ _ => .ok "resp")
      { agent_name := "demo", query_type := .tool,
        query_data := { messages := [], tools := none, action_type := "chat",
                        message_return_type := "text" } } = .ok none := rfl

/-- C3 amended: for every query envelope whose `query_type` is not "llm",
`handle_query` silently succeeds with an empty (null) result instead of
failing — no dispatch path runs and no error is raised. -/
theorem handle_query_nonllm_returns_none
    (send_request : String → LLMQuery → Except String String)
    (request : QueryRequest) (h : request.query_type ≠ .llm) :
    handle_query send_request request = .ok none := by
  unfold handle_query
  cases hq : request.query_type <;> simp_all

/-- Witness for C3: a storage query returns the empty success. -/
theorem handle_query_nonllm_returns_none_witness :
    handle_query (fun _ _ => .ok "resp")
      { agent_name := "demo", query_type := .storage,
        query_data := { messages := ["m"], tools := none, action_type := "chat",
                        message_return_type := "text" } } = .ok none :=
  handle_query_nonllm_returns_none _ _ (by decide)

/-- C5: an explicit backend hint that is present among the registered backend
ids always wins: resolution returns the hinted backend regardless of the
model name, in particular even when the name matches a different registered
prefix. -/
theorem backend_hint_wins (reg : List String) (pmap : List (String × String))
    (llm_name h : String) (hwf : RegistryWF reg pmap) (hmem : h ∈ reg) :
    resolveBackend reg pmap llm_name (some h) = .ok (.registered h) := by
  have hne : h ≠ "" := fun he => hwf.1 (he ▸ hmem)
  unfold resolveBackend
  simp [hne, hmem]

/-- Witness for C5, the exact example of the spec: the name "gpt-4" matches
the registered prefix "gpt" (mapped to "vllm"), yet the hint "ollama"
resolves to "ollama". -/
theorem backend_hint_wins_witness :
    resolveBackend ["vllm", "ollama"] [("gpt", "vllm"), ("ollama", "ollama")]
      "gpt-4" (some "ollama") = .ok (.registered "ollama") :=
  backend_hint_wins _ _ _ _ ⟨by decide, by decide⟩ (by decide)

/-- Unfolding lemma: on a registry snapshot whose prefixes are nonempty
(truthy) and map to registered backend ids, the prefix-inference step never
hits the falsy-prefix fallthrough or the `KeyError` branch: it returns the
first matching prefix mapped to its backend, or the HuggingFace-native
default when no prefix matches. -/
theorem resolveByPrefix_of_wf (reg : List String) (pmap : List (String × String))
    (llm_name : String) (hwf : ∀ pb ∈ pmap, pb.2 ∈ reg)
    (hpre : ∀ pb ∈ pmap, pb.1 ≠ "") :
    resolveByPrefix reg pmap llm_name =
      (match pmap.find? (fun pb => pyStartsWith (pyLower llm_name) pb.1) with
       | some pb => .ok (.registered pb.2)
       | none => .ok .hfNative) := by
  unfold resolveByPrefix
  cases hf : pmap.find? (fun pb => pyStartsWith (pyLower llm_name) pb.1) with
  | none => rfl
  | some pb =>
    have hm := List.mem_of_find?_eq_some hf
    simp [hwf pb hm, hpre pb hm]

/-- C6: on a well-formed registry snapshot whose prefixes are nonempty
strings (as the actual `MODEL_PREFIX_MAP` keys are — an empty key would be
falsy under the `if model_prefix:` guard), backend resolution is total
(never an error, for every name and every hint), and whenever the hint is
absent or not a registered id — in particular an unrecognized explicit hint,
which is silently ignored — the result is exactly prefix matching on the
lowercased name in stable table order, with the HuggingFace-native default
when no prefix matches. -/
theorem backend_resolution_total (reg : List String) (pmap : List (String × String))
    (llm_name : String) (llm_backend : Option String)
    (hwf : RegistryWF reg pmap)
    (hpre : ∀ pb ∈ pmap, pb.1 ≠ "")
    (hhint : ∀ h, llm_backend = some h → h = "" ∨ h ∉ reg) :
    (∀ hint : Option String, ∃ b, resolveBackend reg pmap llm_name hint = .ok b)
    ∧ resolveBackend reg pmap llm_name llm_backend =
        (match pmap.find? (fun pb => pyStartsWith (pyLower llm_name) pb.1) with
         | some pb => .ok (.registered pb.2)
         | none => .ok .hfNative) := by
  have hbp := resolveByPrefix_of_wf reg pmap llm_name hwf.2 hpre
  have key : ∃ b, resolveByPrefix reg pmap llm_name = .ok b := by
    rw [hbp]
    cases pmap.find? (fun pb => pyStartsWith (pyLower llm_name) pb.1) with
    | none => exact ⟨_, rfl⟩
    | some pb => exact ⟨_, rfl⟩
  constructor
  · intro hint
    cases hint with
    | none => simpa [resolveBackend] using key
    | some b =>
      by_cases hb : b ≠ "" ∧ b ∈ reg
      · exact ⟨.registered b, by simp [resolveBackend, hb]⟩
      · simpa [resolveBackend, hb] using key
  · cases hl : llm_backend with
    | none => simpa [resolveBackend] using hbp
    | some h =>
      rcases hhint h hl with he | hn
      · subst he
        simpa [resolveBackend] using hbp
      · have hcond : ¬(h ≠ "" ∧ h ∈ reg) := fun hc => hn hc.2
        simpa [resolveBackend, hcond] using hbp

/-- Witness for C6: the unregistered hint "mlx" is silently ignored for a
name matching no prefix, and resolution lands on the native default. -/
theorem backend_resolution_total_witness :
    resolveBackend ["vllm", "ollama"] [("gpt", "vllm"), ("ollama", "ollama")]
      "Claude-3" (some "mlx") = .ok .hfNative := by
  have h := backend_resolution_total ["vllm", "ollama"]
    [("gpt", "vllm"), ("ollama", "ollama")] "Claude-3" (some "mlx")
    ⟨by decide, by decide⟩ (by decide)
    (by intro h hh; cases hh; right; decide)
  exact h.2.trans (by rfl)

/-- Counterexample to C1 as stated: with every slot active and a tool handle
whose `cleanup()` raises, `cleanup_components` aborts — memory (and storage
and llm) keep their handles, a subsequent `status()` still reports memory
active, and the first failure is surfaced as the 500 error. -/
theorem cleanup_not_best_effort_counterexample :
    ("memory", "active") ∈ get_status
      (cleanup_components
        { llm := some ⟨false, false, ""⟩, storage := some ⟨false, false, ""⟩,
          memory := some ⟨false, false, ""⟩, tool := some ⟨true, true, "tool release failed"⟩,
          scheduler := some ⟨false, "", false, ""⟩, factory := none }).1
    ∧ (cleanup_components
        { llm := some ⟨false, false, ""⟩, storage := some ⟨false, false, ""⟩,
          memory := some ⟨false, false, ""⟩, tool := some ⟨true, true, "tool release failed"⟩,
          scheduler := some ⟨false, "", false, ""⟩, factory := none }).1.memory.isSome = true
    ∧ (cleanup_components
        { llm := some ⟨false, false, ""⟩, storage := some ⟨false, false, ""⟩,
          memory := some ⟨false, false, ""⟩, tool := some ⟨true, true, "tool release failed"⟩,
          scheduler := some ⟨false, "", false, ""⟩, factory := none }).2 =
      .error ⟨500, "Failed to cleanup components: tool release failed"⟩ :=
  ⟨by decide, by decide, rfl⟩

/-- C1 amended: only a `cleanup()` call in which every release step succeeds
forces all five slots back to uninitialized; a failure raised while releasing
one component aborts cleanup with a 500 error carrying that first failure,
and the failing slot together with the slots not yet visited keep their
handles (shown for a failing tool release: only the scheduler slot has been
cleared). -/
theorem cleanup_best_effort_amended :
    (∀ r r' m, cleanup_components r = (r', Except.ok m) →
      r'.llm = none ∧ r'.storage = none ∧ r'.memory = none ∧ r'.tool = none ∧
        r'.scheduler = none)
    ∧ (∀ r s c, r.scheduler = some s → s.stopFails = false →
        r.tool = some c → c.hasCleanup = true → c.cleanupFails = true →
        cleanup_components r =
          ({ r with scheduler := none },
           Except.error ⟨500, "Failed to cleanup components: " ++ c.cleanupMsg⟩)) := by
  constructor
  · intro r r' m h
    unfold cleanup_components at h
    rcases hs : r.scheduler with _ | s <;> rw [hs] at h <;> dsimp only at h
    · simp at h
    · cases hstop : s.stopFails
      · simp only [hstop, Bool.false_eq_true, if_false] at h
        rcases h1 : releaseFail r.tool with _ | e1 <;> rw [h1] at h
        · rcases h2 : releaseFail r.memory with _ | e2 <;> rw [h2] at h
          · rcases h3 : releaseFail r.storage with _ | e3 <;> rw [h3] at h
            · rcases h4 : releaseFail r.llm with _ | e4 <;> rw [h4] at h
              · simp at h
                obtain ⟨h5, -⟩ := h
                subst h5
                exact ⟨rfl, rfl, rfl, rfl, rfl⟩
              · simp at h
            · simp at h
          · simp at h
        · simp at h
      · simp [hstop] at h
  · intro r s c hs hstop hc hhas hfail
    unfold cleanup_components
    rw [hs]
    have hrel : releaseFail r.tool = some c.cleanupMsg := by
      rw [hc]
      unfold releaseFail
      simp [hhas, hfail]
    simp [hstop, hrel]

/-- Witness for C1 amended: a registry where every release succeeds comes out
of cleanup with all five slots uninitialized. -/
theorem cleanup_best_effort_amended_witness :
    (cleanup_components
      { llm := some ⟨true, false, ""⟩, storage := some ⟨false, false, ""⟩,
        memory := some ⟨true, false, ""⟩, tool := some ⟨true, false, ""⟩,
        scheduler := some ⟨false, "", false, ""⟩, factory := none }).1.llm = none
    ∧ (cleanup_components
      { llm := some ⟨true, false, ""⟩, storage := some ⟨false, false, ""⟩,
        memory := some ⟨true, false, ""⟩, tool := some ⟨true, false, ""⟩,
        scheduler := some ⟨false, "", false, ""⟩, factory := none }).1.storage = none
    ∧ (cleanup_components
      { llm := some ⟨true, false, ""⟩, storage := some ⟨false, false, ""⟩,
        memory := some ⟨true, false, ""⟩, tool := some ⟨true, false, ""⟩,
        scheduler := some ⟨false, "", false, ""⟩, factory := none }).1.memory = none
    ∧ (cleanup_components
      { llm := some ⟨true, false, ""⟩, storage := some ⟨false, false, ""⟩,
        memory := some ⟨true, false, ""⟩, tool := some ⟨true, false, ""⟩,
        scheduler := some ⟨false, "", false, ""⟩, factory := none }).1.tool = none
    ∧ (cleanup_components
      { llm := some ⟨true, false, ""⟩, storage := some ⟨false, false, ""⟩,
        memory := some ⟨true, false, ""⟩, tool := some ⟨true, false, ""⟩,
        scheduler := some ⟨false, "", false, ""⟩, factory := none }).1.scheduler = none :=
  cleanup_best_effort_amended.1
    { llm := some ⟨true, false, ""⟩, storage := some ⟨false, false, ""⟩,
      memory := some ⟨true, false, ""⟩, tool := some ⟨true, false, ""⟩,
      scheduler := some ⟨false, "", false, ""⟩, factory := none }
    _ "All components cleaned up" rfl

/-- Counterexample to C2 as stated: with all four prerequisites active, a
scheduler whose construction succeeds but whose `start()` raises leaves the
constructed handle committed in the scheduler slot even though the 500 error
is surfaced — the failed setup partially commits registry state. -/
theorem setup_scheduler_partial_commit_counterexample :
    (setup_scheduler
      { llm := some ⟨false, false, ""⟩, storage := some ⟨false, false, ""⟩,
        memory := some ⟨false, false, ""⟩, tool := some ⟨false, false, ""⟩,
        scheduler := none, factory := none }
      (.ok ⟨true, "start boom", false, ""⟩)).1.scheduler = some ⟨true, "start boom", false, ""⟩
    ∧ (setup_scheduler
      { llm := some ⟨false, false, ""⟩, storage := some ⟨false, false, ""⟩,
        memory := some ⟨false, false, ""⟩, tool := some ⟨false, false, ""⟩,
        scheduler := none, factory := none }
      (.ok ⟨true, "start boom", false, ""⟩)).2 =
      .error ⟨500, "Failed to initialize scheduler: start boom"⟩ :=
  ⟨rfl, rfl⟩

/-- C2 amended: a failure during construction surfaces a structured 500 and
leaves the registry unchanged (shown for `setup_llm` and for a failing
`fifo_scheduler` construction), but a failure raised by `scheduler.start()`
after construction leaves the already-assigned scheduler handle committed in
the slot while the 500 error is surfaced. -/
theorem setup_failure_commit_policy (r : Registry) (e : String) (s : Sched) :
    setup_llm r (.error e) = (r, .error ⟨500, "Failed to initialize LLM core: " ++ e⟩)
    ∧ (missingComponents r = [] →
        setup_scheduler r (.error e) =
          (r, .error ⟨500, "Failed to initialize scheduler: " ++ e⟩))
    ∧ (missingComponents r = [] → s.startFails = true →
        setup_scheduler r (.ok s) =
          ({ r with scheduler := some s },
           .error ⟨500, "Failed to initialize scheduler: " ++ s.startMsg⟩)) := by
  refine ⟨rfl, ?_, ?_⟩
  · intro h
    unfold setup_scheduler
    simp [h]
  · intro h hsf
    unfold setup_scheduler
    simp [h, hsf]

/-- Witness for C2 amended: a failed LLM construction on the fresh registry
and a failed scheduler start on a prerequisite-complete registry. -/
theorem setup_failure_commit_policy_witness :
    setup_llm initRegistry (.error "boom") =
      (initRegistry, .error ⟨500, "Failed to initialize LLM core: boom"⟩)
    ∧ setup_scheduler
        { llm := some ⟨false, false, ""⟩, storage := some ⟨false, false, ""⟩,
          memory := some ⟨false, false, ""⟩, tool := some ⟨false, false, ""⟩,
          scheduler := none, factory := none }
        (.ok ⟨true, "sboom", false, ""⟩) =
      ({ llm := some ⟨false, false, ""⟩, storage := some ⟨false, false, ""⟩,
         memory := some ⟨false, false, ""⟩, tool := some ⟨false, false, ""⟩,
         scheduler := some ⟨true, "sboom", false, ""⟩, factory := none },
       .error ⟨500, "Failed to initialize scheduler: sboom"⟩) :=
  ⟨(setup_failure_commit_policy initRegistry "boom" ⟨true, "sboom", false, ""⟩).1,
   (setup_failure_commit_policy _ "unused" ⟨true, "sboom", false, ""⟩).2.2 rfl rfl⟩

/-- C4: with an active factory, `get_agent_status` always returns a
well-formed 200 body for every execution id — one of running, completed with
the result, or an error report — and never propagates an exception: a null
from the await primitive is reported as running, and a raise while polling is
converted to the error status carrying the exception type name, message and
stack trace. -/
theorem poll_never_throws (r : Registry) (f : Factory) (x : Int)
    (hf : r.factory = some f) :
    (∃ resp, get_agent_status r x = .ok resp)
    ∧ (f.awaitRes x = .ok none → get_agent_status r x = .ok (.running x))
    ∧ (∀ v, f.awaitRes x = .ok (some v) →
        get_agent_status r x = .ok (.completed v x))
    ∧ (∀ e, f.awaitRes x = .error e →
        get_agent_status r x =
          .ok (.errorStatus e.name e.msg e.trace e.debug_logs x)) := by
  have hg : get_agent_status r x =
      (match f.awaitRes x with
       | .ok none => .ok (.running x)
       | .ok (some result) => .ok (.completed result x)
       | .error e => .ok (.errorStatus e.name e.msg e.trace e.debug_logs x)) := by
    unfold get_agent_status
    rw [hf]
  refine ⟨?_, ?_, ?_, ?_⟩
  · rw [hg]
    rcases ha : f.awaitRes x with e | o
    · exact ⟨_, rfl⟩
    · cases o
      · exact ⟨_, rfl⟩
      · exact ⟨_, rfl⟩
  · intro h
    rw [hg, h]
  · intro v h
    rw [hg, h]
  · intro e h
    rw [hg, h]

/-- Witness for C4: a factory whose await primitive returns null yields the
running status. -/
theorem poll_never_throws_witness :
    get_agent_status
      { initRegistry with factory := some ⟨fun _ _ => .ok 1, fun _ => .ok none⟩ } 5 =
      .ok (.running 5) :=
  (poll_never_throws _ ⟨fun _ _ => .ok 1, fun _ => .ok none⟩ 5 rfl).2.1 rfl

/-- Unfolding lemma: no branch of `cleanup_components` writes the `factory`
key, so the factory entry of the resulting registry is untouched. -/
theorem cleanup_components_factory_eq (r : Registry) :
    (cleanup_components r).1.factory = r.factory := by
  unfold cleanup_components
  repeat' split
  all_goals rfl

/-- C9: `cleanup()` never resets the factory slot — after cleanup the factory
entry still holds the submit/await pair, `status()` still reports the factory
entry active, and a subsequent submit passes the factory-active precondition
check and runs the stored submit closure. -/
theorem cleanup_spares_factory (r : Registry) (f : Factory)
    (hf : r.factory = some f) :
    (cleanup_components r).1.factory = some f
    ∧ ("factory", "active") ∈ get_status (cleanup_components r).1
    ∧ ∀ config : AgentSubmit,
        submit_agent (cleanup_components r).1 config =
          (match f.submitRes config.agent_id config.task with
           | .ok execution_id =>
             .ok (execution_id, "Agent " ++ config.agent_id ++ " submitted for execution")
           | .error e => .error ⟨500, e.msg⟩) := by
  have h1 : (cleanup_components r).1.factory = some f :=
    (cleanup_components_factory_eq r).trans hf
  refine ⟨h1, ?_, ?_⟩
  · unfold get_status
    rw [h1]
    simp
  · intro config
    unfold submit_agent
    rw [h1]

/-- Witness for C9: a registry holding only a factory — cleanup fails on the
missing scheduler, yet status still reports the factory active. -/
theorem cleanup_spares_factory_witness :
    ("factory", "active") ∈ get_status
      (cleanup_components
        { initRegistry with factory := some ⟨fun _ _ => .ok 7, fun _ => .ok none⟩ }).1 :=
  (cleanup_spares_factory _ ⟨fun _ _ => .ok 7, fun _ => .ok none⟩ rfl).2.1

/-- C10: `status()` does not contain a factory entry until a factory setup
has succeeded — the fresh registry reports exactly the five keys llm,
storage, memory, tool, scheduler; only a successful `setup_agent_factory`
makes the factory key present (a failed one leaves the factory entry exactly
as it was, in particular still absent); and every operation of the kernel
(all setups and cleanup) preserves the presence of the factory key, so the
sixth key appears in every subsequent `status()` result. -/
theorem status_factory_key :
    (get_status initRegistry).map Prod.fst = ["llm", "storage", "memory", "tool", "scheduler"]
    ∧ (∀ r : Registry, r.factory.isSome = true →
        (get_status r).map Prod.fst =
          ["llm", "storage", "memory", "tool", "scheduler", "factory"])
    ∧ (∀ r build, (setup_agent_factory r build).2.isOk = true →
        ((setup_agent_factory r build).1.factory).isSome = true)
    ∧ (∀ r build, (setup_agent_factory r build).2.isOk = false →
        (setup_agent_factory r build).1.factory = r.factory)
    ∧ (∀ r build, (setup_llm r build).1.factory = r.factory)
    ∧ (∀ r build, (setup_storage r build).1.factory = r.factory)
    ∧ (∀ r build, (setup_memory r build).1.factory = r.factory)
    ∧ (∀ r build, (setup_tool_manager r build).1.factory = r.factory)
    ∧ (∀ r build, (setup_scheduler r build).1.factory = r.factory)
    ∧ (∀ r build, r.factory.isSome = true →
        ((setup_agent_factory r build).1.factory).isSome = true)
    ∧ (∀ r, (cleanup_components r).1.factory = r.factory) := by
  refine ⟨rfl, ?_, ?_, ?_, ?_, ?_, ?_, ?_, ?_, ?_, cleanup_components_factory_eq⟩
  · intro r hf
    rcases hf2 : r.factory with _ | f
    · rw [hf2] at hf
      simp at hf
    · unfold get_status
      rw [hf2]
      rfl
  · intro r build h
    unfold setup_agent_factory at h ⊢
    by_cases hm : missingComponents r ≠ []
    · simp [hm, Except.isOk, Except.toBool] at h
    · rcases build with e | f
      · simp [hm, Except.isOk, Except.toBool] at h
      · simp [hm]
  · intro r build h
    unfold setup_agent_factory at h ⊢
    by_cases hm : missingComponents r ≠ []
    · simp [hm]
    · rcases build with e | f
      · simp [hm]
      · simp [hm, Except.isOk, Except.toBool] at h
  · intro r build
    unfold setup_llm
    repeat' split
    all_goals rfl
  · intro r build
    unfold setup_storage
    repeat' split
    all_goals rfl
  · intro r build
    unfold setup_memory
    repeat' split
    all_goals rfl
  · intro r build
    unfold setup_tool_manager
    repeat' split
    all_goals rfl
  · intro r build
    unfold setup_scheduler
    repeat' split
    all_goals rfl
  · intro r build h
    unfold setup_agent_factory
    rcases build with e | f
    · by_cases hm : missingComponents r ≠ []
      · simp [hm]
        exact h
      · simp [hm]
        exact h
    · by_cases hm : missingComponents r ≠ []
      · simp [hm]
        exact h
      · simp [hm]

/-- Witness for C10: the fresh registry reports five keys; with a factory
stored, status reports the six keys ending in factory; and a factory setup
that fails (here on missing prerequisites) leaves the factory key absent. -/
theorem status_factory_key_witness :
    (get_status initRegistry).map Prod.fst = ["llm", "storage", "memory", "tool", "scheduler"]
    ∧ (get_status
        { initRegistry with factory := some ⟨fun _ _ => .ok 0, fun _ => .ok none⟩ }).map Prod.fst =
      ["llm", "storage", "memory", "tool", "scheduler", "factory"]
    ∧ (setup_agent_factory initRegistry (.error "boom")).1.factory = none :=
  ⟨status_factory_key.1, status_factory_key.2.1 _ rfl,
   status_factory_key.2.2.2.1 initRegistry (.error "boom") rfl⟩

end AIOS
